import Mathlib

/-!
Verification of the FreeRTOS button-classifier / LED-blinker application
(`Assignment 1: Introduction to FreeRTOS/Task 3/main.c`).

The program consists of two perpetual tasks sharing one enumerated value:

* `buttonCheck` polls the push-button line (PORT_0, PIN1; `PIN_IS_LOW`
  means pressed, modelled as `Asserted`) with staged 2000 ms blocking
  delays and writes a classification into the global `pushButtonState`;
* `ledToggle` reads `pushButtonState` at the top of every loop iteration
  and drives the LED line (PORT_0, PIN0) with the corresponding pattern.

The embedding models time in milliseconds as `Nat`, the input line as a
function from time to line state, blocking delays as explicit time
arithmetic, and each task's loop body as a pure function producing the
events (reads, writes, delays) of one iteration.
-/

/-- Logical state of a digital input line.  In the source, the button on
PORT_0 PIN1 reads `PIN_IS_LOW` when pressed; `Asserted` models the
pressed (`PIN_IS_LOW`) reading and `Deasserted` the released one. -/
inductive LineState where
  | Asserted
  | Deasserted
deriving DecidableEq, Repr

/-- The C enumeration `pushButtonStates` from main.c:
`enum pushButtonStates { lessThanTwoSecs, lessThanFourSecs, moreThanFourSecs }`.
`lessThanTwoSecs` is the spec's `Short`, `lessThanFourSecs` is `Medium`,
`moreThanFourSecs` is `Long`. -/
inductive pushButtonStates where
  | lessThanTwoSecs
  | lessThanFourSecs
  | moreThanFourSecs
deriving DecidableEq, Repr

/-- Initial value of the file-scope global `enum pushButtonStates
pushButtonState;`.  As a C object with static storage duration it is
zero-initialized, i.e. to the first enumerator `lessThanTwoSecs`. -/
def pushButtonStateInit : pushButtonStates := .lessThanTwoSecs

/-- Result of one iteration of the `buttonCheck` infinite loop, started
with its first `GPIO_read` at time `t` (ms):
`band` is the value stored into `pushButtonState` during the iteration,
`writeTime` the time of that store, and `nextTime` the time at which the
next iteration performs its first `GPIO_read`. -/
structure IterResult where
  band : pushButtonStates
  writeTime : Nat
  nextTime : Nat
deriving DecidableEq, Repr

/-- One iteration of the `buttonCheck` loop body (main.c, `while (1)`):
read PIN1; if pressed, `vTaskDelay(2000)` and re-read; if still pressed,
`vTaskDelay(2000)` and re-read again; classify accordingly.  Only the
`lessThanFourSecs` (released between 2 s and 4 s) branch performs an
extra `vTaskDelay(2000)` after the store.  `input` gives the line state
at each time; every iteration stores exactly one value. -/
def buttonCheckIter (input : Nat → LineState) (t : Nat) : IterResult :=
  if input t = LineState.Asserted then
    -- button is pressed, could be in one of the three possible states
    if input (t + 2000) = LineState.Asserted then
      -- button is still pressed, could be in second or third state
      if input (t + 4000) = LineState.Asserted then
        -- still pressed after 4 secs: pushButtonState = moreThanFourSecs
        { band := .moreThanFourSecs, writeTime := t + 4000, nextTime := t + 4000 }
      else
        -- released between 2 and 4 secs: pushButtonState = lessThanFourSecs,
        -- then vTaskDelay(2000) before the loop repeats
        { band := .lessThanFourSecs, writeTime := t + 4000, nextTime := t + 6000 }
    else
      -- released before 2 seconds: pushButtonState = lessThanTwoSecs
      { band := .lessThanTwoSecs, writeTime := t + 2000, nextTime := t + 2000 }
  else
    -- button not pressed at all: pushButtonState = lessThanTwoSecs
    { band := .lessThanTwoSecs, writeTime := t, nextTime := t }

/-- Input-line trace of a single button press: the line is asserted
exactly during the closed interval `[start, start + d]` (held
continuously for duration `d`, then released), and deasserted otherwise. -/
def pressInput (start d : Nat) : Nat → LineState := fun t =>
  if start ≤ t ∧ t ≤ start + d then LineState.Asserted else LineState.Deasserted

/-- Modelled from the spec: the band that §3 and §8.1 assign to a hold
duration `d` ms — `Short` below 2000 ms, `Medium` from 2000 ms up to (but
not including) 4000 ms, `Long` from 4000 ms on.  Stated from the spec's
words so that the classifier's behaviour can be compared against it. -/
def bandOfDuration (d : Nat) : pushButtonStates :=
  if d < 2000 then .lessThanTwoSecs
  else if d < 4000 then .lessThanFourSecs
  else .moreThanFourSecs

theorem buttonCheckIter_idle (input : Nat → LineState) (t : Nat)
    (h : input t = LineState.Deasserted) :
    buttonCheckIter input t =
      { band := .lessThanTwoSecs, writeTime := t, nextTime := t } := by
  simp [buttonCheckIter, h]

theorem buttonCheckIter_short (input : Nat → LineState) (t : Nat)
    (h : input t = LineState.Asserted)
    (h2 : input (t + 2000) = LineState.Deasserted) :
    buttonCheckIter input t =
      { band := .lessThanTwoSecs, writeTime := t + 2000, nextTime := t + 2000 } := by
  simp [buttonCheckIter, h, h2]

theorem buttonCheckIter_medium (input : Nat → LineState) (t : Nat)
    (h : input t = LineState.Asserted)
    (h2 : input (t + 2000) = LineState.Asserted)
    (h4 : input (t + 4000) = LineState.Deasserted) :
    buttonCheckIter input t =
      { band := .lessThanFourSecs, writeTime := t + 4000, nextTime := t + 6000 } := by
  simp [buttonCheckIter, h, h2, h4]

theorem buttonCheckIter_long (input : Nat → LineState) (t : Nat)
    (h : input t = LineState.Asserted)
    (h2 : input (t + 2000) = LineState.Asserted)
    (h4 : input (t + 4000) = LineState.Asserted) :
    buttonCheckIter input t =
      { band := .moreThanFourSecs, writeTime := t + 4000, nextTime := t + 4000 } := by
  simp [buttonCheckIter, h, h2, h4]

/-- Claim C1: a press held continuously for duration `d` (the classifier's
first `Asserted` read occurring at the start of the press) and then
released is classified `Short` if `d < 2000`, `Medium` if
`2000 ≤ d < 4000`, and `Long` if `d ≥ 4000`. -/
theorem C1_band_correctness (start d : Nat) :
    (buttonCheckIter (pressInput start d) start).band = bandOfDuration d := by
  have h0 : pressInput start d start = LineState.Asserted := by
    simp only [pressInput]
    rw [if_pos (by omega)]
  rcases lt_or_le d 2000 with hd | hd
  · have e2 : pressInput start d (start + 2000) = LineState.Deasserted := by
      simp only [pressInput]
      rw [if_neg (by omega)]
    rw [buttonCheckIter_short (pressInput start d) start h0 e2, bandOfDuration,
      if_pos hd]
  · have e2 : pressInput start d (start + 2000) = LineState.Asserted := by
      simp only [pressInput]
      rw [if_pos (by omega)]
    rcases lt_or_le d 4000 with hd4 | hd4
    · have e4 : pressInput start d (start + 4000) = LineState.Deasserted := by
        simp only [pressInput]
        rw [if_neg (by omega)]
      rw [buttonCheckIter_medium (pressInput start d) start h0 e2 e4, bandOfDuration,
        if_neg (by omega), if_pos hd4]
    · have e4 : pressInput start d (start + 4000) = LineState.Asserted := by
        simp only [pressInput]
        rw [if_pos (by omega)]
      rw [buttonCheckIter_long (pressInput start d) start h0 e2 e4, bandOfDuration,
        if_neg (by omega), if_neg (by omega)]

/-- `n` iterations of the `buttonCheck` loop: starting from stored value
`s` and first read at time `t`, returns the stored `pushButtonState` and
the time of the next iteration's first read after `n` iterations. -/
def buttonCheckRun (input : Nat → LineState) (s : pushButtonStates) (t : Nat) :
    Nat → pushButtonStates × Nat
  | 0 => (s, t)
  | n + 1 =>
    let p := buttonCheckRun input s t n
    let r := buttonCheckIter input p.2
    (r.band, r.nextTime)

/-- Claim C2: if the input line is never asserted, then after every
iteration of the `buttonCheck` loop the stored classification equals
`lessThanTwoSecs` (`Short`), and it never changes from it (it already
starts there, `n = 0` included). -/
theorem C2_idle_default (input : Nat → LineState) (t0 n : Nat)
    (h : ∀ t, input t = LineState.Deasserted) :
    (buttonCheckRun input pushButtonStateInit t0 n).1 =
      pushButtonStates.lessThanTwoSecs := by
  cases n with
  | zero => rfl
  | succ n =>
    simp only [buttonCheckRun]
    rw [buttonCheckIter_idle input _ (h _)]

theorem C2_idle_default_witness :
    (buttonCheckRun (fun _ => LineState.Deasserted) pushButtonStateInit 0 5).1 =
      pushButtonStates.lessThanTwoSecs :=
  C2_idle_default (fun _ => LineState.Deasserted) 0 5 (fun _ => rfl)

/-- Claim C4: the next poll after an iteration begins one extra 2000 ms
suspension later exactly when the classification stored was
`lessThanFourSecs` (`Medium`); after a `Short` or `Long` classification
the next read happens at the time of the store, with no extra delay. -/
theorem C4_medium_cooldown (input : Nat → LineState) (t : Nat) :
    (buttonCheckIter input t).nextTime =
      (buttonCheckIter input t).writeTime +
        (if (buttonCheckIter input t).band = pushButtonStates.lessThanFourSecs
          then 2000 else 0) := by
  cases h0 : input t with
  | Deasserted =>
    rw [buttonCheckIter_idle input t h0]
    simp
  | Asserted =>
    cases h2 : input (t + 2000) with
    | Deasserted =>
      rw [buttonCheckIter_short input t h0 h2]
      simp
    | Asserted =>
      cases h4 : input (t + 4000) with
      | Deasserted =>
        rw [buttonCheckIter_medium input t h0 h2 h4]
        simp
      | Asserted =>
        rw [buttonCheckIter_long input t h0 h2 h4]
        simp

/-- Observable events of one `buttonCheck` iteration: a `GPIO_read` of
PIN1 at a time, a store to the global `pushButtonState` at a time, and a
`vTaskDelay` starting at a time for a number of milliseconds. -/
inductive CEvent where
  | read (t : Nat) (v : LineState)
  | write (t : Nat) (b : pushButtonStates)
  | delay (t : Nat) (ms : Nat)
deriving DecidableEq, Repr

/-- The ordered event trace of one iteration of the `buttonCheck` loop
body, first `GPIO_read` at time `t` — same control flow as
`buttonCheckIter`, with the store and delay order made explicit.  In the
`lessThanFourSecs` branch the source stores `pushButtonState` first and
only then calls `vTaskDelay(2000)`. -/
def buttonCheckIterTrace (input : Nat → LineState) (t : Nat) : List CEvent :=
  if input t = LineState.Asserted then
    CEvent.read t LineState.Asserted :: CEvent.delay t 2000 ::
    (if input (t + 2000) = LineState.Asserted then
      CEvent.read (t + 2000) LineState.Asserted :: CEvent.delay (t + 2000) 2000 ::
      (if input (t + 4000) = LineState.Asserted then
        [CEvent.read (t + 4000) LineState.Asserted,
         CEvent.write (t + 4000) .moreThanFourSecs]
      else
        [CEvent.read (t + 4000) LineState.Deasserted,
         CEvent.write (t + 4000) .lessThanFourSecs,
         CEvent.delay (t + 4000) 2000])
    else
      [CEvent.read (t + 2000) LineState.Deasserted,
       CEvent.write (t + 2000) .lessThanTwoSecs])
  else
    [CEvent.read t LineState.Deasserted, CEvent.write t .lessThanTwoSecs]

/-- Claim C10: whenever an iteration classifies `lessThanFourSecs`
(`Medium`), the store to `pushButtonState` happens before the 2000 ms
cooldown suspension: the iteration's trace ends with the `Medium` write
immediately followed by the `delay` that starts at the same instant, so
the shared state already holds `Medium` for the whole cooldown. -/
theorem C10_write_before_cooldown (input : Nat → LineState) (t : Nat)
    (h : (buttonCheckIter input t).band = pushButtonStates.lessThanFourSecs) :
    ∃ pre, buttonCheckIterTrace input t =
      pre ++ [CEvent.write ((buttonCheckIter input t).writeTime) .lessThanFourSecs,
              CEvent.delay ((buttonCheckIter input t).writeTime) 2000] := by
  cases h0 : input t with
  | Deasserted =>
    rw [buttonCheckIter_idle input t h0] at h
    simp at h
  | Asserted =>
    cases h2 : input (t + 2000) with
    | Deasserted =>
      rw [buttonCheckIter_short input t h0 h2] at h
      simp at h
    | Asserted =>
      cases h4 : input (t + 4000) with
      | Asserted =>
        rw [buttonCheckIter_long input t h0 h2 h4] at h
        simp at h
      | Deasserted =>
        refine ⟨[CEvent.read t LineState.Asserted, CEvent.delay t 2000,
                 CEvent.read (t + 2000) LineState.Asserted,
                 CEvent.delay (t + 2000) 2000,
                 CEvent.read (t + 4000) LineState.Deasserted], ?_⟩
        rw [buttonCheckIter_medium input t h0 h2 h4]
        simp [buttonCheckIterTrace, h0, h2, h4]

theorem C10_write_before_cooldown_witness :
    (buttonCheckIter (pressInput 0 3000) 0).band = pushButtonStates.lessThanFourSecs ∧
    ∃ pre, buttonCheckIterTrace (pressInput 0 3000) 0 =
      pre ++ [CEvent.write 4000 .lessThanFourSecs, CEvent.delay 4000 2000] :=
  ⟨by decide, C10_write_before_cooldown (pressInput 0 3000) 0 (by decide)⟩

/-- Logical level written to the LED output line (PORT_0, PIN0), the
`PIN_IS_HIGH` / `PIN_IS_LOW` values of the source's `GPIO_write` calls. -/
inductive Level where
  | PIN_IS_HIGH
  | PIN_IS_LOW
deriving DecidableEq, Repr

/-- Observable events of one `ledToggle` iteration: a `GPIO_write` to the
LED line, or a `vTaskDelay` for a number of milliseconds. -/
inductive DriverEvent where
  | gpioWrite (level : Level)
  | taskDelay (ms : Nat)
deriving DecidableEq, Repr

/-- One iteration of the `ledToggle` loop body (main.c): the `switch` on
the value of `pushButtonState` read at the top of the iteration. -/
def ledToggleIter (s : pushButtonStates) : List DriverEvent :=
  match s with
  | .lessThanTwoSecs =>
      -- turn the LED off; no delay
      [.gpioWrite .PIN_IS_LOW]
  | .lessThanFourSecs =>
      -- LED on, block 400 ms, LED off, block 400 ms
      [.gpioWrite .PIN_IS_HIGH, .taskDelay 400, .gpioWrite .PIN_IS_LOW, .taskDelay 400]
  | .moreThanFourSecs =>
      -- LED on, block 100 ms, LED off, block 100 ms
      [.gpioWrite .PIN_IS_HIGH, .taskDelay 100, .gpioWrite .PIN_IS_LOW, .taskDelay 100]

/-- Time consumed by one driver event: `GPIO_write` is immediate,
`vTaskDelay ms` blocks for `ms` milliseconds. -/
def eventDuration : DriverEvent → Nat
  | .gpioWrite _ => 0
  | .taskDelay ms => ms

/-- Duration of one `ledToggle` iteration for a given band: the sum of
its delays (one full pattern period). -/
def ledTogglePeriod (s : pushButtonStates) : Nat :=
  ((ledToggleIter s).map eventDuration).sum

/-- Claim C3: each `ledToggle` iteration is determined by the band read
at the top of the iteration — `Short` writes the line Low and loops with
no delay (period 0); `Medium` writes High, delays 400 ms, writes Low,
delays 400 ms (period 800 ms); `Long` writes High, delays 100 ms, writes
Low, delays 100 ms (period 200 ms). -/
theorem C3_driver_patterns :
    ledToggleIter .lessThanTwoSecs = [.gpioWrite .PIN_IS_LOW] ∧
    ledTogglePeriod .lessThanTwoSecs = 0 ∧
    ledToggleIter .lessThanFourSecs =
      [.gpioWrite .PIN_IS_HIGH, .taskDelay 400,
       .gpioWrite .PIN_IS_LOW, .taskDelay 400] ∧
    ledTogglePeriod .lessThanFourSecs = 800 ∧
    ledToggleIter .moreThanFourSecs =
      [.gpioWrite .PIN_IS_HIGH, .taskDelay 100,
       .gpioWrite .PIN_IS_LOW, .taskDelay 100] ∧
    ledTogglePeriod .moreThanFourSecs = 200 := by
  decide

/-- The mutable state the two tasks share: the global `pushButtonState`
and the LED line PIN0 that `ledToggle` actuates. -/
structure SysState where
  pushButtonState : pushButtonStates
  pin0 : Level
deriving DecidableEq, Repr

/-- System state at startup: `pushButtonState` zero-initialized to
`lessThanTwoSecs`, LED line low after `GPIO_init()`. -/
def initialSysState : SysState := { pushButtonState := pushButtonStateInit, pin0 := .PIN_IS_LOW }

/-- Effect of one driver event on the shared state: `GPIO_write` sets
PIN0, `vTaskDelay` changes nothing. -/
def applyDriverEvent (s : SysState) : DriverEvent → SysState
  | .gpioWrite level => { s with pin0 := level }
  | .taskDelay _ => s

/-- Net effect of one whole `ledToggle` iteration on the shared state:
fold its events (the `switch` on `pushButtonState`) over the state. -/
def ledToggleStep (s : SysState) : SysState :=
  (ledToggleIter s.pushButtonState).foldl applyDriverEvent s

/-- One scheduler-level step of the two-task system: `none` is a whole
`ledToggle` iteration, `some b` is a `buttonCheck` iteration completing
and storing `b` into `pushButtonState` (every `buttonCheck` iteration
stores exactly one value). -/
def execStep (s : SysState) : Option pushButtonStates → SysState
  | none => ledToggleStep s
  | some b => { s with pushButtonState := b }

/-- Execution of an arbitrary interleaving of whole-iteration steps. -/
def execSchedule (s : SysState) : List (Option pushButtonStates) → SysState
  | [] => s
  | step :: rest => execSchedule (execStep s step) rest

/-- The most recent classifier store in a schedule, defaulting to `d`
when the classifier has not stored anything yet. -/
def lastWrite (d : pushButtonStates) : List (Option pushButtonStates) → pushButtonStates
  | [] => d
  | none :: rest => lastWrite d rest
  | some b :: rest => lastWrite b rest

theorem ledToggleStep_pushButtonState (s : SysState) :
    (ledToggleStep s).pushButtonState = s.pushButtonState := by
  rcases s with ⟨b, p⟩
  cases b <;> rfl

theorem execSchedule_lastWrite (sched : List (Option pushButtonStates)) :
    ∀ s : SysState, (execSchedule s sched).pushButtonState =
      lastWrite s.pushButtonState sched := by
  induction sched with
  | nil => intro s; rfl
  | cons step rest ih =>
    intro s
    cases step with
    | none =>
      simp only [execSchedule, execStep, lastWrite]
      rw [ih (ledToggleStep s), ledToggleStep_pushButtonState]
    | some b =>
      simp only [execSchedule, execStep, lastWrite]
      exact ih _

/-- Claim C5: at startup — before any classifier store — the shared
classification is `lessThanTwoSecs` (`Short`), and after any interleaving
of whole-iteration steps it equals exactly the most recent value stored
by `buttonCheck` (or still the initial value if it has never stored). -/
theorem C5_shared_state_invariant :
    initialSysState.pushButtonState = pushButtonStates.lessThanTwoSecs ∧
    ∀ sched : List (Option pushButtonStates),
      (execSchedule initialSysState sched).pushButtonState =
        lastWrite pushButtonStateInit sched :=
  ⟨rfl, fun sched => execSchedule_lastWrite sched initialSysState⟩

/-- Claim C7: `ledToggle` never modifies the shared classification — a
single driver iteration leaves `pushButtonState` unchanged, and any
number of consecutive driver iterations (a classifier-free schedule)
leaves it unchanged, so only whole values stored by `buttonCheck` are
ever observable. -/
theorem C7_driver_never_writes :
    (∀ s : SysState, (ledToggleStep s).pushButtonState = s.pushButtonState) ∧
    ∀ (s : SysState) (n : Nat),
      (execSchedule s (List.replicate n none)).pushButtonState = s.pushButtonState := by
  refine ⟨ledToggleStep_pushButtonState, fun s n => ?_⟩
  induction n generalizing s with
  | zero => rfl
  | succ n ih =>
    simp only [List.replicate, execSchedule, execStep]
    rw [ih (ledToggleStep s), ledToggleStep_pushButtonState]

/-- Times at which `ledToggle` reads `pushButtonState`: the first read at
time 0; each subsequent read one full iteration later, the iteration
lasting the pattern period of the band just read (`Short` iterations add
no delay).  `shared` gives the value of `pushButtonState` at each time. -/
def driverReadTimes (shared : Nat → pushButtonStates) : Nat → Nat
  | 0 => 0
  | n + 1 =>
    driverReadTimes shared n +
      ledTogglePeriod (shared (driverReadTimes shared n))

theorem ledTogglePeriod_le (b : pushButtonStates) : ledTogglePeriod b ≤ 800 := by
  cases b <;> decide

/-- Shared-state history for the C6 counterexample: the classification is
`lessThanFourSecs` (`Medium`) at time 0 and `moreThanFourSecs` (`Long`)
from time 1 on — a transition into `Long` at time 1, just after the
driver read `Medium` at time 0. -/
def mediumThenLong : Nat → pushButtonStates := fun t =>
  if t = 0 then .lessThanFourSecs else .moreThanFourSecs

theorem mediumThenLong_reads_ge (n : Nat) :
    800 ≤ driverReadTimes mediumThenLong (n + 1) := by
  induction n with
  | zero => decide
  | succ n ih =>
    have hstep : driverReadTimes mediumThenLong (n + 1 + 1) =
        driverReadTimes mediumThenLong (n + 1) +
          ledTogglePeriod (mediumThenLong (driverReadTimes mediumThenLong (n + 1))) := rfl
    omega

/-- Claim C6 as stated is false on the code: with the classification
`Medium` at time 0 and `Long` from time 1 on (a transition into `Long` at
time 1 that persists), the driver — which read `Medium` at time 0 and is
executing the 800 ms `Medium` cycle — performs no read of the shared
state in the window `[1, 201]`, so its output does not match `Long`
within 200 ms of the transition; the next read is only at 800 ms. -/
theorem C6_counterexample :
    mediumThenLong 1 = pushButtonStates.moreThanFourSecs ∧
    driverReadTimes mediumThenLong 0 = 0 ∧
    driverReadTimes mediumThenLong 1 = 800 ∧
    ¬ ∃ n, 1 ≤ driverReadTimes mediumThenLong n ∧
        driverReadTimes mediumThenLong n ≤ 1 + 200 := by
  refine ⟨rfl, rfl, by decide, ?_⟩
  rintro ⟨n, h1, h2⟩
  cases n with
  | zero =>
    have h0 : driverReadTimes mediumThenLong 0 = 0 := rfl
    omega
  | succ n =>
    have := mediumThenLong_reads_ge n
    omega

/-- Claim C6 amended: after the shared classification changes at time
`tc` to a band `b` that persists, the driver reads the new band — and so
starts rendering its pattern — within one full period of the iteration in
progress at the change, hence within 800 ms (the longest pattern period)
for transitions into any band; the lag is bounded by the old in-progress
cycle, not by the new band's own period.  (Stated for histories in which
the driver's reads reach time `tc` at all.) -/
theorem C6_bounded_staleness_amended (shared : Nat → pushButtonStates)
    (tc : Nat) (b : pushButtonStates)
    (hpersist : ∀ t, tc ≤ t → shared t = b)
    (hreach : ∃ n, tc ≤ driverReadTimes shared n) :
    ∃ m, tc ≤ driverReadTimes shared m ∧
      driverReadTimes shared m ≤ tc + 800 ∧
      shared (driverReadTimes shared m) = b := by
  have hspec := Nat.find_spec hreach
  refine ⟨Nat.find hreach, hspec, ?_, hpersist _ hspec⟩
  cases hn : Nat.find hreach with
  | zero =>
    have h0 : driverReadTimes shared 0 = 0 := rfl
    omega
  | succ m =>
    have hmin : ¬ tc ≤ driverReadTimes shared m := Nat.find_min hreach (by omega)
    have hstep : driverReadTimes shared (m + 1) =
        driverReadTimes shared m +
          ledTogglePeriod (shared (driverReadTimes shared m)) := rfl
    have hper : ledTogglePeriod (shared (driverReadTimes shared m)) ≤ 800 :=
      ledTogglePeriod_le _
    omega

theorem C6_bounded_staleness_witness :
    ∃ m, 0 ≤ driverReadTimes (fun _ => pushButtonStates.moreThanFourSecs) m ∧
      driverReadTimes (fun _ => pushButtonStates.moreThanFourSecs) m ≤ 0 + 800 ∧
      (fun _ => pushButtonStates.moreThanFourSecs)
        (driverReadTimes (fun _ => pushButtonStates.moreThanFourSecs) m) =
        pushButtonStates.moreThanFourSecs :=
  C6_bounded_staleness_amended (fun _ => pushButtonStates.moreThanFourSecs) 0
    pushButtonStates.moreThanFourSecs (fun _ _ => rfl) ⟨0, Nat.zero_le _⟩

/-- The condition asserted by `configASSERT` at the entry of each task:
`( ( uint32_t ) pvParameters ) == 1`. -/
def taskEntryAssert (pvParameters : Nat) : Bool := pvParameters == 1

/-- Parameter `main` passes to `ledToggle` via `xTaskCreate`: `( void * ) 1`. -/
def ledToggleParameter : Nat := 1

/-- Parameter `main` passes to `buttonCheck` via `xTaskCreate`: `( void * ) 1`. -/
def buttonCheckParameter : Nat := 1

/-- Claim C8: the entry assertion of each task holds, because `main`
creates both tasks with parameter value 1; the assertion-failure branch
is unreachable. -/
theorem C8_entry_asserts_hold :
    taskEntryAssert ledToggleParameter = true ∧
    taskEntryAssert buttonCheckParameter = true := by
  decide

/-- The trailing `for( ;; );` of `main`: an empty-body infinite loop.
`mainSpinLoop fuel = none` means the loop has not exited within `fuel`
iterations; `some ()` would mean it exited. -/
def mainSpinLoop : Nat → Option Unit
  | 0 => none
  | fuel + 1 => mainSpinLoop fuel

/-- Outcome of starting the scheduler: either it starts normally, or the
heap was too small to create the idle task. -/
inductive SchedulerOutcome where
  | started
  | heapExhausted
deriving DecidableEq, Repr

/-- Modelled from the spec: `vTaskStartScheduler` (external FreeRTOS
scheduling substrate, not part of this repository's sources) never
returns once the scheduler starts; it returns only when there is not
enough heap for the background idle/scheduling infrastructure.
`none` = has not returned. -/
def vTaskStartScheduler : SchedulerOutcome → Option Unit
  | .started => none
  | .heapExhausted => some ()

/-- Tail of `main` after the two `xTaskCreate` calls, observed for `fuel`
spin-loop steps: call `vTaskStartScheduler`; if it ever returns, fall
into `for( ;; );`.  `none` = `main` has not returned. -/
def mainReturns (outcome : SchedulerOutcome) (fuel : Nat) : Option Unit :=
  match vTaskStartScheduler outcome with
  | none => none
  | some _ => mainSpinLoop fuel

theorem mainSpinLoop_none (fuel : Nat) : mainSpinLoop fuel = none := by
  induction fuel with
  | zero => rfl
  | succ fuel ih => exact ih

/-- Claim C9: `main` never returns — under normal operation the scheduler
call never returns, and on startup heap exhaustion the entry point spins
in `for( ;; );` indefinitely (no number of steps makes it exit). -/
theorem C9_main_never_returns (outcome : SchedulerOutcome) (fuel : Nat) :
    mainReturns outcome fuel = none := by
  cases outcome with
  | started => rfl
  | heapExhausted => exact mainSpinLoop_none fuel
